import Mathlib

/-!
Verification development for the Crypto Tracker application (src/main.py).

The fetch-and-transform logic of the application is embedded shallowly:

* market and history responses become explicit records whose fields say
  whether the transport succeeded, whether the HTTP status was a success,
  and what (if anything) the body decoded to;
* the two UI handlers `load_data` and `on_coin_selected` become state
  transitions on an `AppState` record, returning the number of error
  dialogs they pop;
* the pandas percent-change column, the chart-annotation loop, the search
  filter and the table/card formatting become pure Lean functions over
  rationals and character lists.

Python floats are modelled as rationals (exact arithmetic); Python strings
as lists of characters.
-/

set_option autoImplicit false

namespace CryptoTracker

/-- One decoded entry of the markets response, as `populate_table_and_cards`
and `filter_table` consume it.  Optional fields model JSON null / absent
keys (the code reads them with `coin.get`). -/
structure Coin where
  id : List Char
  name : List Char
  symbol : List Char
  current_price : Option ℚ
  market_cap : Option ℚ
  price_change_percentage_24h : Option ℚ
  price_change_percentage_7d_in_currency : Option ℚ
  total_volume : Option ℚ
  circulating_supply : Option ℚ
  total_supply : Option ℚ
  deriving DecidableEq, Repr

/-! ### History transformation (`on_coin_selected`, lines 409-429)

`df["pct_change"] = df["price"].pct_change() * 100` produces a column whose
entry 0 is undefined (pandas NaN, modelled as `none`) and whose entry `i`
for `i ≥ 1` is `(price[i] - price[i-1]) / price[i-1] * 100`. -/

/-- Tail of the percent-change column: entry for each price in the list,
relative to the previous price `prev`. -/
def pctChangeGo (prev : ℚ) : List ℚ → List (Option ℚ)
  | [] => []
  | p :: rest => some ((p - prev) / prev * 100) :: pctChangeGo p rest

/-- The full percent-change column, aligned with the price series:
index 0 carries no value, index `i ≥ 1` carries the derived change. -/
def pct_change (prices : List ℚ) : List (Option ℚ) :=
  match prices with
  | [] => []
  | p :: rest => none :: pctChangeGo p rest

/-- The derived percentage-change values actually read by the annotation
loop, i.e. the column entries at indices `1 .. len-1`. -/
def pctValues (prices : List ℚ) : List ℚ :=
  ((pct_change prices).drop 1).reduceOption

/-- Direction of a chart annotation (the up-lime / down-red marker). -/
inductive Classification where
  | increase
  | decrease
  deriving DecidableEq, Repr

/-- The annotation branch of the loop: `if ch >= 0` draws the lime
increase marker, otherwise the red decrease marker. -/
def classify (ch : ℚ) : Classification :=
  if 0 ≤ ch then Classification.increase else Classification.decrease

/-- The chart annotations drawn for a price series: one per point after
the first, pairing the derived change with its classification. -/
def chartAnnotations (prices : List ℚ) : List (ℚ × Classification) :=
  (pctValues prices).map (fun ch => (ch, classify ch))

/-! ### History fetch (`on_coin_selected`, lines 400-440) -/

/-- Error outcomes of the history fetch: `fetchError` groups the transport
failure, the non-success status raised by `raise_for_status`, and the
undecodable body; `noDataError` is the distinct `ValueError` raised when
the decoded body has no usable prices series. -/
inductive HistErr where
  | fetchError
  | noDataError
  deriving DecidableEq, Repr

/-- Outcome of one request to the market-chart endpoint.
`decoded = none` means the body did not decode; `decoded = some none`
means it decoded but has no prices key; `decoded = some (some l)` means
it decoded to a prices list `l` of (timestamp, price) pairs. -/
structure HistResponse where
  transportOk : Bool
  statusOk : Bool
  decoded : Option (Option (List (ℚ × ℚ)))
  deriving DecidableEq, Repr

/-- The fetch-and-validate part of `on_coin_selected`: transport failure,
non-2xx status and decode failure raise before the prices check; a missing
or empty prices series raises the distinct no-data `ValueError`. -/
def fetchHistory (r : HistResponse) : Except HistErr (List (ℚ × ℚ)) :=
  if r.transportOk = false then Except.error HistErr.fetchError
  else if r.statusOk = false then Except.error HistErr.fetchError
  else
    match r.decoded with
    | none => Except.error HistErr.fetchError
    | some none => Except.error HistErr.noDataError
    | some (some l) =>
        if l.isEmpty then Except.error HistErr.noDataError else Except.ok l

/-! ### Markets fetch (`load_data`, lines 178-194) -/

/-- Error outcome of the markets fetch: any transport failure, non-success
status or decode failure lands in the single catch-all handler. -/
inductive MarketsErr where
  | fetchError
  deriving DecidableEq, Repr

/-- Outcome of one request to the markets endpoint.  `decoded = none`
means the body did not decode to a coin list. -/
structure MarketsResponse where
  transportOk : Bool
  statusOk : Bool
  decoded : Option (List Coin)
  deriving DecidableEq, Repr

/-- The fetch part of `load_data`: `requests.get`, `raise_for_status` and
`resp.json()` in order, each failure reaching the catch-all handler. -/
def fetchMarkets (r : MarketsResponse) : Except MarketsErr (List Coin) :=
  if r.transportOk = false then Except.error MarketsErr.fetchError
  else if r.statusOk = false then Except.error MarketsErr.fetchError
  else
    match r.decoded with
    | none => Except.error MarketsErr.fetchError
    | some data => Except.ok data

/-- The displayed state the two handlers mutate: the last fetched snapshot
list (`self.all_data`, rendered by `populate_table_and_cards`) and the
chart contents (price line plus annotations). -/
structure AppState where
  all_data : List Coin
  chart : Option (List ℚ × List (ℚ × Classification))
  deriving DecidableEq, Repr

/-- `load_data` as a state transition.  On success it stores the decoded
list wholesale and pops no dialog; on any failure it pops exactly one
error dialog and leaves the state untouched (the assignment to
`self.all_data` sits after every failure point). -/
def load_data (st : AppState) (r : MarketsResponse) : AppState × Nat :=
  match fetchMarkets r with
  | Except.ok data => ({ st with all_data := data }, 0)
  | Except.error _ => (st, 1)

/-- `on_coin_selected` as a state transition.  On success the chart is
redrawn from the fetched series; on any fetch/validate failure exactly one
error dialog pops and the state is untouched (the axes are only cleared
after every failure point of the fetch). -/
def on_coin_selected (st : AppState) (r : HistResponse) : AppState × Nat :=
  match fetchHistory r with
  | Except.ok pricePairs =>
      let prices := pricePairs.map (fun pp => pp.2)
      ({ st with chart := some (prices, chartAnnotations prices) }, 0)
  | Except.error _ => (st, 1)

/-! ### Search filter (`filter_table`, lines 363-375) -/

/-- Python `text.lower().strip()`: lowercase, then drop whitespace from
both ends. -/
def lowerStrip (s : List Char) : List Char :=
  ((((s.map Char.toLower).dropWhile Char.isWhitespace).reverse).dropWhile
    Char.isWhitespace).reverse

/-- Python substring containment `needle in hay`. -/
def containsSub (hay needle : List Char) : Bool :=
  (List.range (hay.length + 1)).any (fun i => needle.isPrefixOf (hay.drop i))

/-- The search handler: an empty stripped query repopulates from the full
list; otherwise it keeps the coins whose lowercased name or symbol
contains the stripped, lowercased query. -/
def filter_table (all_data : List Coin) (text : List Char) : List Coin :=
  if (lowerStrip text).isEmpty then all_data
  else
    all_data.filter (fun coin =>
      containsSub (coin.name.map Char.toLower) (lowerStrip text) ||
      containsSub (coin.symbol.map Char.toLower) (lowerStrip text))

/-- The filter as the specification words it, for comparison with
`filter_table`: keep exactly the coins whose name or symbol contains the
query itself (not stripped) as a case-insensitive substring. -/
def filterSpecLiteral (all_data : List Coin) (text : List Char) : List Coin :=
  all_data.filter (fun coin =>
    containsSub (coin.name.map Char.toLower) (text.map Char.toLower) ||
    containsSub (coin.symbol.map Char.toLower) (text.map Char.toLower))

/-! ### Field defaulting and rendering (`populate_table_and_cards`,
lines 221-255, and `_create_card`, lines 303-314) -/

/-- Python `x or d` on an optional number: `None` and `0` are falsy, so
both yield the default. -/
def pyOr (x : Option ℚ) (d : ℚ) : ℚ :=
  match x with
  | none => d
  | some v => if v = 0 then d else v

/-- The 24h change used by the table and the cards:
`coin.get("price_change_percentage_24h") or 0.0`. -/
def pct24Of (c : Coin) : ℚ :=
  pyOr c.price_change_percentage_24h 0

/-- The 7d change used by the table:
`float(pct7) if pct7 is not None else 0.0`. -/
def pct7Of (c : Coin) : ℚ :=
  match c.price_change_percentage_7d_in_currency with
  | none => 0
  | some v => v

/-- What the Total Supply cell shows: the infinity sentinel or a number. -/
inductive TotalRender where
  | sentinel
  | numeric (v : ℚ)
  deriving DecidableEq, Repr

/-- `f"..." if total_supply else "∞"`: Python truthiness, so both an
absent value and a present zero render as the sentinel. -/
def totalSupplyRender (c : Coin) : TotalRender :=
  match c.total_supply with
  | none => TotalRender.sentinel
  | some v => if v = 0 then TotalRender.sentinel else TotalRender.numeric v

/-- Foreground color applied to a 24h-change cell or card label. -/
inductive ColorCode where
  | lime
  | red
  | neutral
  deriving DecidableEq, Repr

/-- The color branch used in both views: `if pct24 > 0` lime,
`elif pct24 < 0` red, otherwise no color is set. -/
def pctColor (v : ℚ) : ColorCode :=
  if 0 < v then ColorCode.lime
  else if v < 0 then ColorCode.red
  else ColorCode.neutral

/-- Color of the 24h Change table cell (lines 221-229). -/
def table_color_24h (c : Coin) : ColorCode :=
  pctColor (pct24Of c)

/-- Color of the 24h label on a card (lines 308-314). -/
def card_color_24h (c : Coin) : ColorCode :=
  pctColor (pct24Of c)

/-! ### Supersede-on-reissue semantics -/

/-- Modelled from the spec: the supersede-on-reissue completion handling
demanded for non-blocking fetches (section 5) is absent from the
synchronous source, so the "last snapshot" / "last history" slot is
modelled here from the spec's words as a generation-tagged slot.  Issuing
a fetch bumps the slot's generation; a completion is applied only if it
carries the current generation, so a newly issued fetch of the same kind
invalidates any still-pending prior fetch of that kind. -/
structure FetchSlot (α : Type) where
  generation : Nat
  applied : Option α
  deriving DecidableEq, Repr

/-- Modelled from the spec: issuing a fetch of this slot's kind returns
the updated slot and the generation tag the new fetch carries. -/
def issue {α : Type} (s : FetchSlot α) : FetchSlot α × Nat :=
  ({ s with generation := s.generation + 1 }, s.generation + 1)

/-- Modelled from the spec: a completion arriving with generation tag
`gen` is applied only when `gen` is still the slot's current generation;
a stale completion is discarded, never applied. -/
def complete {α : Type} (s : FetchSlot α) (gen : Nat) (result : α) : FetchSlot α :=
  if gen = s.generation then { s with applied := some result } else s

/-! ### Sample data for concrete evaluations -/

/-- A concrete decoded coin (Ethereum-like), used for concrete runs. -/
def ethCoin : Coin :=
  { id := "ethereum".toList
    name := "Ethereum".toList
    symbol := "eth".toList
    current_price := some 2500
    market_cap := some 300000000000
    price_change_percentage_24h := some 2
    price_change_percentage_7d_in_currency := none
    total_volume := some 15000000000
    circulating_supply := some 120000000
    total_supply := none }

/-- A concrete coin whose total supply is present and equal to zero. -/
def zeroSupplyCoin : Coin :=
  { ethCoin with
    id := "zerocoin".toList
    name := "Zerocoin".toList
    symbol := "zero".toList
    total_supply := some 0 }

/-- A concrete coin whose 24h change is present and equal to zero. -/
def flatCoin : Coin :=
  { ethCoin with
    id := "flatcoin".toList
    name := "Flatcoin".toList
    symbol := "flat".toList
    price_change_percentage_24h := some 0 }

/-- A concrete coin with absent 24h change and a nonzero total supply. -/
def btcCoin : Coin :=
  { ethCoin with
    id := "bitcoin".toList
    name := "Bitcoin".toList
    symbol := "btc".toList
    price_change_percentage_24h := none
    total_supply := some 21000000 }

/-! ### Shared lemmas about the percent-change column -/

/-- The derived values of a one-point series are empty. -/
theorem pctValues_singleton (p : ℚ) : pctValues [p] = [] := rfl

/-- Unfolding the derived values one step. -/
theorem pctValues_cons (p0 p1 : ℚ) (rest : List ℚ) :
    pctValues (p0 :: p1 :: rest) =
      ((p1 - p0) / p0 * 100) :: pctValues (p1 :: rest) := by
  simp [pctValues, pct_change, pctChangeGo]

/-- A series of length `1 + k` yields exactly `k` derived values. -/
theorem pctValues_length (p : ℚ) (rest : List ℚ) :
    (pctValues (p :: rest)).length = rest.length := by
  induction rest generalizing p with
  | nil => rfl
  | cons q rest ih =>
    rw [pctValues_cons]
    simp [ih]

/-- The `i`-th derived value is the percent change from point `i` to
point `i + 1` of the series. -/
theorem pctValues_getD (p : ℚ) (rest : List ℚ) (i : Nat) (h : i < rest.length) :
    (pctValues (p :: rest)).getD i 0 =
      ((p :: rest).getD (i + 1) 0 - (p :: rest).getD i 0) /
        (p :: rest).getD i 0 * 100 := by
  induction rest generalizing p i with
  | nil => exact absurd h (by simp)
  | cons q rest ih =>
    cases i with
    | zero =>
      rw [pctValues_cons]
      simp
    | succ i =>
      rw [pctValues_cons]
      simp only [List.getD_cons_succ]
      exact ih q i (by simpa using h)

/-! ### Claim theorems -/

/-- C1: for every historical price series of length M ≥ 2, the
transformation produces exactly M − 1 derived percentage-change values,
the i-th equal to (price[i+1] − price[i]) / price[i] * 100, and the
percent-change column carries no value at index 0. -/
theorem c1_percent_change_series (prices : List ℚ) (h : 2 ≤ prices.length) :
    (pctValues prices).length = prices.length - 1 ∧
    (∀ i, i + 1 < prices.length →
      (pctValues prices).getD i 0 =
        (prices.getD (i + 1) 0 - prices.getD i 0) / prices.getD i 0 * 100) ∧
    (pct_change prices).get? 0 = some none := by
  cases prices with
  | nil => exact absurd h (by decide)
  | cons p rest =>
    refine ⟨by simp [pctValues_length], ?_, rfl⟩
    intro i hi
    exact pctValues_getD p rest i (by simpa using hi)

/-- Concrete witness for C1 on the three-point series 100, 110, 55. -/
theorem c1_percent_change_series_witness :
    2 ≤ ([100, 110, 55] : List ℚ).length ∧
    ((pctValues [100, 110, 55]).length = ([100, 110, 55] : List ℚ).length - 1 ∧
     (∀ i, i + 1 < ([100, 110, 55] : List ℚ).length →
       (pctValues [100, 110, 55]).getD i 0 =
         (([100, 110, 55] : List ℚ).getD (i + 1) 0 -
             ([100, 110, 55] : List ℚ).getD i 0) /
           ([100, 110, 55] : List ℚ).getD i 0 * 100) ∧
     (pct_change [100, 110, 55]).get? 0 = some none) :=
  ⟨by decide, c1_percent_change_series [100, 110, 55] (by decide)⟩

/-- Concrete evaluation: the flat series 100, 100 has one annotation, with
percent change exactly 0, classified increase. -/
theorem chartAnnotations_flat :
    chartAnnotations [100, 100] = [((0 : ℚ), Classification.increase)] := by
  norm_num [chartAnnotations, pctValues, pct_change, pctChangeGo, classify]

/-- C2: every annotated point of a transformed series is classified
increase exactly when its percent change is ≥ 0 and decrease exactly when
it is < 0; a change of exactly 0 classifies as increase. -/
theorem c2_zero_change_is_increase (prices : List ℚ) (ch : ℚ)
    (cl : Classification) (hmem : (ch, cl) ∈ chartAnnotations prices) :
    (cl = Classification.increase ↔ 0 ≤ ch) ∧
    (cl = Classification.decrease ↔ ch < 0) ∧
    classify 0 = Classification.increase := by
  simp only [chartAnnotations, List.mem_map] at hmem
  obtain ⟨a, -, heq⟩ := hmem
  injection heq with h1 h2
  subst h1
  subst h2
  by_cases hle : (0 : ℚ) ≤ a
  · simp [classify, hle, not_lt.mpr hle]
  · simp [classify, hle, not_le.mp hle]

/-- Concrete witness for C2 on the flat series 100, 100, whose single
annotation has percent change exactly 0 and is classified increase. -/
theorem c2_zero_change_is_increase_witness :
    ((0 : ℚ), Classification.increase) ∈ chartAnnotations [100, 100] ∧
    ((Classification.increase = Classification.increase ↔ (0 : ℚ) ≤ 0) ∧
     (Classification.increase = Classification.decrease ↔ (0 : ℚ) < 0) ∧
     classify 0 = Classification.increase) :=
  ⟨by simp [chartAnnotations_flat],
   c2_zero_change_is_increase [100, 100] 0 Classification.increase
     (by simp [chartAnnotations_flat])⟩

/-- C6: the empty-string query is the identity on the snapshot list: the
filter returns the identical sequence, with the same length. -/
theorem c6_empty_query_identity (coins : List Coin) :
    filter_table coins ("".toList) = coins ∧
    (filter_table coins ("".toList)).length = coins.length :=
  ⟨rfl, rfl⟩

/-- C3: a well-formed history response whose decoded prices series is
empty yields the no-data error, a condition distinct from the fetch error
used for transport failures, non-success statuses and decode failures. -/
theorem c3_empty_series_no_data (r : HistResponse)
    (ht : r.transportOk = true) (hs : r.statusOk = true)
    (hd : r.decoded = some (some [])) :
    fetchHistory r = Except.error HistErr.noDataError ∧
    HistErr.noDataError ≠ HistErr.fetchError := by
  refine ⟨?_, by decide⟩
  simp [fetchHistory, ht, hs, hd]

/-- Concrete witness for C3: a 200-status response decoding to an empty
prices array. -/
theorem c3_empty_series_no_data_witness :
    ((⟨true, true, some (some [])⟩ : HistResponse).transportOk = true ∧
     (⟨true, true, some (some [])⟩ : HistResponse).statusOk = true ∧
     (⟨true, true, some (some [])⟩ : HistResponse).decoded = some (some [])) ∧
    (fetchHistory ⟨true, true, some (some [])⟩ =
        Except.error HistErr.noDataError ∧
     HistErr.noDataError ≠ HistErr.fetchError) :=
  ⟨⟨rfl, rfl, rfl⟩,
   c3_empty_series_no_data ⟨true, true, some (some [])⟩ rfl rfl rfl⟩

/-- C4: a failed fetch (transport failure, non-success status, or
undecodable body) leaves the displayed snapshot list and history series
unchanged and reports exactly one error, for both handlers. -/
theorem c4_failure_preserves_state (st : AppState) (rm : MarketsResponse)
    (rh : HistResponse)
    (hm : fetchMarkets rm = Except.error MarketsErr.fetchError)
    (hh : fetchHistory rh = Except.error HistErr.fetchError) :
    load_data st rm = (st, 1) ∧ on_coin_selected st rh = (st, 1) := by
  constructor
  · simp [load_data, hm]
  · simp [on_coin_selected, hh]

/-- Concrete witness for C4: both fetches fail at the transport and the
previously displayed state survives with one reported error each. -/
theorem c4_failure_preserves_state_witness :
    (fetchMarkets ⟨false, true, none⟩ = Except.error MarketsErr.fetchError ∧
     fetchHistory ⟨false, true, none⟩ = Except.error HistErr.fetchError) ∧
    (load_data ⟨[ethCoin], none⟩ ⟨false, true, none⟩ = (⟨[ethCoin], none⟩, 1) ∧
     on_coin_selected ⟨[ethCoin], none⟩ ⟨false, true, none⟩ =
       (⟨[ethCoin], none⟩, 1)) :=
  ⟨⟨rfl, rfl⟩,
   c4_failure_preserves_state ⟨[ethCoin], none⟩ ⟨false, true, none⟩
     ⟨false, true, none⟩ rfl rfl⟩

/-- C7: a well-formed markets response decoding to N entries yields a
snapshot list equal to the decoded sequence — length exactly N, server
order preserved — wholly replacing the prior list regardless of its
contents, with no error reported. -/
theorem c7_snapshot_replaced (st : AppState) (r : MarketsResponse)
    (data : List Coin) (h : fetchMarkets r = Except.ok data) :
    (load_data st r).1.all_data = data ∧
    (load_data st r).1.all_data.length = data.length ∧
    (load_data st r).1.chart = st.chart ∧
    (load_data st r).2 = 0 := by
  simp [load_data, h]

/-- Concrete witness for C7: a two-entry response replaces an unrelated
one-entry snapshot list. -/
theorem c7_snapshot_replaced_witness :
    fetchMarkets ⟨true, true, some [ethCoin, flatCoin]⟩ =
      Except.ok [ethCoin, flatCoin] ∧
    ((load_data ⟨[zeroSupplyCoin], none⟩
        ⟨true, true, some [ethCoin, flatCoin]⟩).1.all_data =
      [ethCoin, flatCoin] ∧
     (load_data ⟨[zeroSupplyCoin], none⟩
        ⟨true, true, some [ethCoin, flatCoin]⟩).1.all_data.length =
      [ethCoin, flatCoin].length ∧
     (load_data ⟨[zeroSupplyCoin], none⟩
        ⟨true, true, some [ethCoin, flatCoin]⟩).1.chart =
      (⟨[zeroSupplyCoin], none⟩ : AppState).chart ∧
     (load_data ⟨[zeroSupplyCoin], none⟩
        ⟨true, true, some [ethCoin, flatCoin]⟩).2 = 0) :=
  ⟨rfl,
   c7_snapshot_replaced ⟨[zeroSupplyCoin], none⟩
     ⟨true, true, some [ethCoin, flatCoin]⟩ [ethCoin, flatCoin] rfl⟩

/-- C5 counterexample: for the query "eth " (trailing blank) the filter
keeps the Ethereum coin although neither its lowercased name nor its
lowercased symbol contains the query as a substring, because the code
strips the query before matching — so the filter is not the subsequence
of snapshots containing the raw query case-insensitively. -/
theorem c5_counterexample :
    filter_table [ethCoin] ("eth ".toList) = [ethCoin] ∧
    filterSpecLiteral [ethCoin] ("eth ".toList) = [] ∧
    containsSub (ethCoin.name.map Char.toLower)
      (("eth ".toList).map Char.toLower) = false ∧
    containsSub (ethCoin.symbol.map Char.toLower)
      (("eth ".toList).map Char.toLower) = false :=
  ⟨rfl, rfl, rfl, rfl⟩

/-- C5 (amended): the filter is a pure projection returning the
subsequence — original order preserved — of snapshots whose lowercased
name or symbol contains the lowercased, whitespace-stripped query as a
substring; a query that strips to nothing returns the full list, and a
non-empty stripped query matching no name or symbol yields the empty
sequence. -/
theorem c5_filter_amended (coins : List Coin) (q : List Char) :
    List.Sublist (filter_table coins q) coins ∧
    ((lowerStrip q).isEmpty = true → filter_table coins q = coins) ∧
    ((lowerStrip q).isEmpty = false →
      filter_table coins q = coins.filter (fun coin =>
        containsSub (coin.name.map Char.toLower) (lowerStrip q) ||
        containsSub (coin.symbol.map Char.toLower) (lowerStrip q))) ∧
    ((lowerStrip q).isEmpty = false →
      (∀ coin ∈ coins,
        containsSub (coin.name.map Char.toLower) (lowerStrip q) = false ∧
        containsSub (coin.symbol.map Char.toLower) (lowerStrip q) = false) →
      filter_table coins q = []) := by
  refine ⟨?_, ?_, ?_, ?_⟩
  · unfold filter_table
    by_cases h : (lowerStrip q).isEmpty = true
    · rw [if_pos h]
    · rw [if_neg h]
      exact List.filter_sublist _
  · intro h
    unfold filter_table
    rw [if_pos h]
  · intro h
    unfold filter_table
    rw [if_neg (by simp [h])]
  · intro h hnone
    unfold filter_table
    rw [if_neg (by simp [h])]
    rw [List.filter_eq_nil_iff]
    intro coin hc
    obtain ⟨h1, h2⟩ := hnone coin hc
    simp [h1, h2]

/-- Concrete witness for C5 (amended): the query "zzz" matches no name or
symbol of the one-coin list and filters it to the empty sequence. -/
theorem c5_filter_amended_witness :
    (lowerStrip ("zzz".toList)).isEmpty = false ∧
    filter_table [ethCoin] ("zzz".toList) = [] :=
  ⟨rfl,
   (c5_filter_amended [ethCoin] ("zzz".toList)).2.2.2 rfl
     (by
        intro c hc
        rw [List.mem_singleton] at hc
        subst hc
        exact ⟨rfl, rfl⟩)⟩

/-- C8 counterexample: a coin whose total supply is present and equal to
zero still renders as the infinite-supply sentinel (Python truthiness of
the value), so the sentinel does not appear exactly when the field is
absent. -/
theorem c8_counterexample :
    zeroSupplyCoin.total_supply = some 0 ∧
    totalSupplyRender zeroSupplyCoin = TotalRender.sentinel ∧
    ¬ (∀ c : Coin,
        totalSupplyRender c = TotalRender.sentinel ↔ c.total_supply = none) := by
  have hst : totalSupplyRender zeroSupplyCoin = TotalRender.sentinel := by
    simp [totalSupplyRender, zeroSupplyCoin, ethCoin]
  refine ⟨rfl, hst, ?_⟩
  intro hall
  have hnone := (hall zeroSupplyCoin).mp hst
  simp [zeroSupplyCoin, ethCoin] at hnone

/-- C8 (amended): an absent 24h or 7d percentage change is treated as
exactly 0, and the total supply renders as the infinite-supply sentinel
exactly when it is absent or equal to zero, and as its numeric value
otherwise. -/
theorem c8_defaults_amended (c : Coin) :
    (c.price_change_percentage_24h = none → pct24Of c = 0) ∧
    (c.price_change_percentage_7d_in_currency = none → pct7Of c = 0) ∧
    (totalSupplyRender c = TotalRender.sentinel ↔
      (c.total_supply = none ∨ c.total_supply = some 0)) ∧
    (∀ v : ℚ, c.total_supply = some v → v ≠ 0 →
      totalSupplyRender c = TotalRender.numeric v) := by
  refine ⟨?_, ?_, ?_, ?_⟩
  · intro h
    simp [pct24Of, pyOr, h]
  · intro h
    simp [pct7Of, h]
  · cases hts : c.total_supply with
    | none => simp [totalSupplyRender, hts]
    | some v =>
      by_cases hv : v = 0
      · simp [totalSupplyRender, hts, hv]
      · simp [totalSupplyRender, hts, hv]
  · intro v hv hne
    simp [totalSupplyRender, hv, hne]

/-- Concrete witness for C8 (amended) on a coin with absent 24h and 7d
changes and a nonzero total supply. -/
theorem c8_defaults_amended_witness :
    btcCoin.price_change_percentage_24h = none ∧
    pct24Of btcCoin = 0 ∧
    pct7Of btcCoin = 0 ∧
    totalSupplyRender btcCoin = TotalRender.numeric 21000000 :=
  ⟨rfl,
   (c8_defaults_amended btcCoin).1 rfl,
   (c8_defaults_amended btcCoin).2.1 rfl,
   (c8_defaults_amended btcCoin).2.2.2 21000000 rfl (by norm_num)⟩

/-- C9: when a second fetch of the same kind is issued before the first
completes, only the second fetch result is applied: the first fetch's
completion carries a superseded generation and is discarded, whether it
arrives after the second result (first conjuncts) or before it (last
conjuncts). -/
theorem c9_supersede {α : Type} (s0 : FetchSlot α) (r1 r2 : α) :
    (complete (complete (issue (issue s0).1).1 (issue (issue s0).1).2 r2)
        (issue s0).2 r1).applied = some r2 ∧
    complete (complete (issue (issue s0).1).1 (issue (issue s0).1).2 r2)
        (issue s0).2 r1 =
      complete (issue (issue s0).1).1 (issue (issue s0).1).2 r2 ∧
    complete (issue (issue s0).1).1 (issue s0).2 r1 = (issue (issue s0).1).1 ∧
    (complete (complete (issue (issue s0).1).1 (issue s0).2 r1)
        (issue (issue s0).1).2 r2).applied = some r2 := by
  have hne : s0.generation + 1 ≠ s0.generation + 2 := by omega
  simp [issue, complete, hne]

/-- Concrete evaluation: a coin whose 24h change is present and zero has
a zero table value. -/
theorem pct24Of_flat : pct24Of flatCoin = 0 := by
  simp [pct24Of, pyOr, flatCoin, ethCoin]

/-- C10: in the table and card views a 24h change of exactly 0 gets
neither the lime increase color nor the red decrease color — the color
branches are strict comparisons — unlike the chart annotation
classification, which sends 0 to increase. -/
theorem c10_zero_change_uncolored (c : Coin) (h : pct24Of c = 0) :
    table_color_24h c = ColorCode.neutral ∧
    card_color_24h c = ColorCode.neutral ∧
    (∀ v : ℚ, (pctColor v = ColorCode.lime ↔ 0 < v) ∧
      (pctColor v = ColorCode.red ↔ v < 0)) ∧
    classify 0 = Classification.increase := by
  refine ⟨?_, ?_, ?_, by simp [classify]⟩
  · simp [table_color_24h, pctColor, h]
  · simp [card_color_24h, pctColor, h]
  · intro v
    rcases lt_trichotomy v 0 with hv | hv | hv
    · simp [pctColor, hv, asymm hv]
    · subst hv
      simp [pctColor]
    · simp [pctColor, hv, asymm hv]

/-- Concrete witness for C10: the coin with a present, zero 24h change is
uncolored in both views. -/
theorem c10_zero_change_uncolored_witness :
    pct24Of flatCoin = 0 ∧
    table_color_24h flatCoin = ColorCode.neutral ∧
    card_color_24h flatCoin = ColorCode.neutral :=
  ⟨pct24Of_flat,
   (c10_zero_change_uncolored flatCoin pct24Of_flat).1,
   (c10_zero_change_uncolored flatCoin pct24Of_flat).2.1⟩

end CryptoTracker
